import Mathlib

/-!
Shallow embedding of `src/dawn_db_wrapper.cpp`, a native Lua module loader.

The source is a single C function:

    int luaopen_dawn_db(lua_State* L) {
        const char* path = "/usr/local/share/lua/5.1/dawn_db.luac";
        if (luaL_loadfile(L, path) != LUA_OK) {
            return luaL_error(L, "Failed to load dawn_db.luac: %s", lua_tostring(L, -1));
        }
        if (lua_pcall(L, 0, 1, 0) != LUA_OK) {
            return luaL_error(L, "Error running dawn_db.luac: %s", lua_tostring(L, -1));
        }
        return 1;
    }

We embed the Lua value stack as a `List LuaValue` with the TOP of the stack
at the HEAD of the list.  The external environment (the filesystem together
with the bytecode parser, and the behaviour of parsed chunks when run) is a
parameter `LuaEnv`: `parseFile` gives the outcome of `luaL_loadfile` for a
path, and `runChunk` gives the outcome of calling a parsed chunk (identified
by a chunk id) on an argument list.  Each embedded API call also records the
externally observable events it performs (a file load attempt, a call into a
chunk), so that "parses once", "executes exactly once with zero arguments
and one requested result" and "never attempts execution" are statable.

`luaL_error` performs a `longjmp` in C: control leaves the entry point
through the runtime's error mechanism and the C function never returns.
We model the two possible fates of an invocation with `EntryOutcome`:
either an error was raised (carrying the formatted message), or the
function returned normally with an integer status and a final stack.
-/

/-- A Lua value.  Tables and functions are heap objects; we carry an opaque
identity (`Nat`) for tables and a chunk id for functions, which `LuaEnv`
interprets.  Lua numbers are doubles in C; none of the verified claims
depend on numeric arithmetic, so the payload is abstracted to `Int`. -/
inductive LuaValue where
  | nil : LuaValue
  | boolean : Bool → LuaValue
  | num : Int → LuaValue
  | str : String → LuaValue
  | table : Nat → LuaValue
  | func : Nat → LuaValue
deriving DecidableEq, Repr

/-- Outcome of `luaL_loadfile` for some path: either a parsed chunk
(identified by `cid`), or one of Lua's load failures (file missing or
unreadable, syntax/bytecode error, out of memory), each carrying the
diagnostic message the runtime leaves on the stack. -/
inductive LoadResult where
  | ok : Nat → LoadResult
  | errFile : String → LoadResult
  | errSyntax : String → LoadResult
  | errMem : String → LoadResult
deriving DecidableEq, Repr

/-- The (nonzero on failure) status code `luaL_loadfile` returns,
following the Lua 5.1 header constants. -/
def LoadResult.status : LoadResult → Int
  | .ok _ => 0
  | .errFile _ => 6
  | .errSyntax _ => 3
  | .errMem _ => 4

/-- The diagnostic message of a failed load, `none` on success. -/
def LoadResult.errMsg? : LoadResult → Option String
  | .ok _ => none
  | .errFile m => some m
  | .errSyntax m => some m
  | .errMem m => some m

/-- Outcome of running a chunk under `lua_pcall`: the list of values it
returns, or one of Lua's protected-call failures (runtime fault, out of
memory, error inside the error handler), each carrying the diagnostic
message the runtime leaves on the stack. -/
inductive RunResult where
  | ok : List LuaValue → RunResult
  | errRun : String → RunResult
  | errMem : String → RunResult
  | errErr : String → RunResult
deriving DecidableEq, Repr

/-- The diagnostic message of a failed run, `none` on success. -/
def RunResult.errMsg? : RunResult → Option String
  | .ok _ => none
  | .errRun m => some m
  | .errMem m => some m
  | .errErr m => some m

/-- The external world the wrapper runs against: the filesystem plus
bytecode parser (`parseFile`), and the behaviour of each parsed chunk when
called with a list of arguments (`runChunk`). -/
structure LuaEnv where
  parseFile : String → LoadResult
  runChunk : Nat → List LuaValue → RunResult

/-- Externally observable events of an invocation: an attempt to read and
parse the file at a path, and a protected call into a chunk requesting
`nresults` results with `nargs` arguments. -/
inductive Event where
  | load : String → Event
  | call : Nat → Nat → Event
deriving DecidableEq, Repr

/-- `LUA_OK`, the success status code. -/
def LUA_OK : Int := 0

/-- `luaL_loadfile(L, path)`: attempts to read and parse the file at
`path`.  On success it pushes the parsed chunk as a function value and
returns 0; on failure it pushes the diagnostic message and returns the
nonzero failure status.  Always records one `load` event. -/
def luaL_loadfile (env : LuaEnv) (stack : List LuaValue) (path : String) :
    Int × List LuaValue × List Event :=
  match env.parseFile path with
  | .ok cid => (0, .func cid :: stack, [.load path])
  | .errFile m => (6, .str m :: stack, [.load path])
  | .errSyntax m => (3, .str m :: stack, [.load path])
  | .errMem m => (4, .str m :: stack, [.load path])

/-- Result adjustment of `lua_pcall` for a fixed `nresults ≥ 0`: keep the
first `nresults` returned values, padding with `nil` when the chunk
returned fewer. -/
def adjustResults (nresults : Nat) (vals : List LuaValue) : List LuaValue :=
  vals.take nresults ++ List.replicate (nresults - vals.length) .nil

/-- `lua_pcall(L, nargs, nresults, 0)`: pops `nargs` arguments and the
function below them, calls the function in protected mode.  On success it
pushes the adjusted results (last result on top) and returns 0; on failure
it pushes the error message and returns the nonzero failure status.
Records one `call` event for the attempted call. -/
def lua_pcall (env : LuaEnv) (stack : List LuaValue) (nargs nresults : Nat) :
    Int × List LuaValue × List Event :=
  let args := (stack.take nargs).reverse
  match stack.drop nargs with
  | .func cid :: rest =>
      (match env.runChunk cid args with
       | .ok vals => (0, (adjustResults nresults vals).reverse ++ rest, [.call nargs nresults])
       | .errRun m => (2, .str m :: rest, [.call nargs nresults])
       | .errMem m => (4, .str m :: rest, [.call nargs nresults])
       | .errErr m => (5, .str m :: rest, [.call nargs nresults]))
  | _ :: rest => (2, .str "attempt to call a non-function value" :: rest, [.call nargs nresults])
  | [] => (2, [.str "attempt to call a nil value"], [.call nargs nresults])

/-- `lua_tostring(L, -1)`: reads the value at the top of the stack as a
string (numbers convert; other values yield NULL, i.e. `none`). -/
def lua_tostring_top (stack : List LuaValue) : Option String :=
  match stack with
  | .str s :: _ => some s
  | .num n :: _ => some (toString n)
  | _ => none

/-- Lua's `%s` format directive substitutes `"(null)"` for a NULL
`const char*` argument (see `luaO_pushvfstring`). -/
def formatStringArg (s? : Option String) : String :=
  match s? with
  | some s => s
  | none => "(null)"

/-- The compiled-in module path of the wrapper. -/
def dawn_db_path : String := "/usr/local/share/lua/5.1/dawn_db.luac"

/-- Fate of one invocation of the entry point: either `luaL_error` raised
an error (control leaves through the runtime's error mechanism, carrying
the formatted message), or the C function returned normally with a status
code and a final value stack. -/
inductive EntryOutcome where
  | errorRaised : String → EntryOutcome
  | returned : Int → List LuaValue → EntryOutcome
deriving DecidableEq, Repr

/-- `luaopen_dawn_db(L)`, embedded: load the file at the compiled-in path;
if that fails, raise `"Failed to load dawn_db.luac: %s"` with the
diagnostic at the top of the stack; otherwise call the chunk with zero
arguments requesting one result; if that fails, raise
`"Error running dawn_db.luac: %s"` with the diagnostic at the top of the
stack; otherwise return status 1 with the result value on the stack.
Also yields the list of events the invocation performed, in order. -/
def luaopen_dawn_db (env : LuaEnv) (L : List LuaValue) :
    EntryOutcome × List Event :=
  let r1 := luaL_loadfile env L dawn_db_path
  if r1.1 ≠ LUA_OK then
    (.errorRaised ("Failed to load dawn_db.luac: " ++ formatStringArg (lua_tostring_top r1.2.1)),
     r1.2.2)
  else
    let r2 := lua_pcall env r1.2.1 0 1
    if r2.1 ≠ LUA_OK then
      (.errorRaised ("Error running dawn_db.luac: " ++ formatStringArg (lua_tostring_top r2.2.1)),
       r1.2.2 ++ r2.2.2)
    else
      (.returned 1 r2.2.1, r1.2.2 ++ r2.2.2)

/-- The invocation's result viewed purely as a function of the external
environment: the error message raised, or the single value delivered on
the stack.  Used to state that the entry point neither reads nor writes
anything below the stack top it was given. -/
def loaderPure (env : LuaEnv) : Except String LuaValue :=
  match env.parseFile dawn_db_path with
  | .ok cid =>
      (match env.runChunk cid [] with
       | .ok vals => .ok (vals.headD .nil)
       | .errRun m => .error ("Error running dawn_db.luac: " ++ m)
       | .errMem m => .error ("Error running dawn_db.luac: " ++ m)
       | .errErr m => .error ("Error running dawn_db.luac: " ++ m))
  | .errFile m => .error ("Failed to load dawn_db.luac: " ++ m)
  | .errSyntax m => .error ("Failed to load dawn_db.luac: " ++ m)
  | .errMem m => .error ("Failed to load dawn_db.luac: " ++ m)

/-- The invocation's event trace viewed purely as a function of the
external environment. -/
def loaderEvents (env : LuaEnv) : List Event :=
  match env.parseFile dawn_db_path with
  | .ok _ => [.load dawn_db_path, .call 0 1]
  | _ => [.load dawn_db_path]

/-- The sublist of load events in a trace. -/
def loadEvents (es : List Event) : List Event :=
  es.filter fun e =>
    match e with
    | .load _ => true
    | .call _ _ => false

/-- The diagnostic message left on the stack by whichever step failed, if
one did: the load diagnostic when parsing fails, else the run diagnostic
when execution faults. -/
def underlyingDiag (env : LuaEnv) : Option String :=
  match env.parseFile dawn_db_path with
  | .ok cid => (env.runChunk cid []).errMsg?
  | r => r.errMsg?

/-- Decomposition of the entry point: its outcome is the pure function of
the environment `loaderPure`, grafted onto the caller's stack only by
pushing the produced value on success, and its trace is `loaderEvents`. -/
theorem luaopen_decomposition (env : LuaEnv) (L : List LuaValue) :
    luaopen_dawn_db env L =
      ((match loaderPure env with
        | .error m => .errorRaised m
        | .ok v => .returned 1 (v :: L)),
       loaderEvents env) := by
  unfold luaopen_dawn_db loaderPure loaderEvents
  cases h1 : env.parseFile dawn_db_path with
  | ok cid =>
      simp only [luaL_loadfile, h1, LUA_OK]
      norm_num
      cases h2 : env.runChunk cid [] with
      | ok vals =>
          simp [lua_pcall, h2, adjustResults, lua_tostring_top]
          cases vals <;> simp
      | errRun m => simp [lua_pcall, h2, lua_tostring_top, formatStringArg]
      | errMem m => simp [lua_pcall, h2, lua_tostring_top, formatStringArg]
      | errErr m => simp [lua_pcall, h2, lua_tostring_top, formatStringArg]
  | errFile m => simp [luaL_loadfile, h1, LUA_OK, lua_tostring_top, formatStringArg]
  | errSyntax m => simp [luaL_loadfile, h1, LUA_OK, lua_tostring_top, formatStringArg]
  | errMem m => simp [luaL_loadfile, h1, LUA_OK, lua_tostring_top, formatStringArg]

/-- The result of an invocation as seen by the caller, independent of the
entry stack: the raised message on failure, or the returned status with
the value at the top of the final stack on success. -/
def observableResult : EntryOutcome → Except String (Int × Option LuaValue)
  | .errorRaised m => .error m
  | .returned s S => .ok (s, S.head?)

/-- Environment whose file parses to chunk 0, which returns the single
table value `table 7`. -/
def envSuccess : LuaEnv :=
  { parseFile := fun _ => .ok 0
    runChunk := fun _ _ => .ok [.table 7] }

/-- Environment in which the file cannot be opened. -/
def envMissing : LuaEnv :=
  { parseFile := fun _ => .errFile "cannot open /usr/local/share/lua/5.1/dawn_db.luac"
    runChunk := fun _ _ => .ok [] }

/-- Environment whose file parses but whose chunk raises a runtime fault. -/
def envFault : LuaEnv :=
  { parseFile := fun _ => .ok 0
    runChunk := fun _ _ => .errRun "attempt to perform arithmetic on a nil value" }

/-- Environment whose chunk returns no values at all. -/
def envNoValues : LuaEnv :=
  { parseFile := fun _ => .ok 0
    runChunk := fun _ _ => .ok [] }

/-- Environment whose chunk returns three values. -/
def envManyValues : LuaEnv :=
  { parseFile := fun _ => .ok 0
    runChunk := fun _ _ => .ok [.num 1, .num 2, .num 3] }

/-- Claim C1: when parsing succeeds and the chunk's execution succeeds
producing the single value `v`, the entry point returns status 1 with
exactly `v` pushed on the entry stack, having parsed once and called the
chunk once with zero arguments and one requested result. -/
theorem c1_success_returns_value_unchanged (env : LuaEnv) (L : List LuaValue)
    (cid : Nat) (v : LuaValue)
    (hp : env.parseFile dawn_db_path = .ok cid)
    (hr : env.runChunk cid [] = .ok [v]) :
    luaopen_dawn_db env L =
      (.returned 1 (v :: L), [.load dawn_db_path, .call 0 1]) := by
  rw [luaopen_decomposition]
  simp [loaderPure, loaderEvents, hp, hr]

/-- Witness for C1 at a concrete environment and the empty entry stack. -/
theorem c1_witness :
    envSuccess.parseFile dawn_db_path = .ok 0 ∧
    envSuccess.runChunk 0 [] = .ok [.table 7] ∧
    luaopen_dawn_db envSuccess [] =
      (.returned 1 [.table 7], [.load dawn_db_path, .call 0 1]) :=
  ⟨rfl, rfl, c1_success_returns_value_unchanged envSuccess [] 0 (.table 7) rfl rfl⟩

/-- Claim C2: when reading or parsing the file fails with diagnostic `m`,
the entry point raises the parse-failure error carrying `m`, and its whole
event trace is the single load attempt: execution is never attempted. -/
theorem c2_parse_failure_no_execution (env : LuaEnv) (L : List LuaValue) (m : String)
    (hp : (env.parseFile dawn_db_path).errMsg? = some m) :
    luaopen_dawn_db env L =
      (.errorRaised ("Failed to load dawn_db.luac: " ++ m), [.load dawn_db_path]) := by
  rw [luaopen_decomposition]
  cases h : env.parseFile dawn_db_path <;>
    rw [h] at hp <;>
    simp [LoadResult.errMsg?] at hp <;>
    simp [loaderPure, loaderEvents, h, hp]

/-- Witness for C2 at a concrete environment with an unreadable file. -/
theorem c2_witness :
    (envMissing.parseFile dawn_db_path).errMsg? =
      some "cannot open /usr/local/share/lua/5.1/dawn_db.luac" ∧
    luaopen_dawn_db envMissing [] =
      (.errorRaised
        "Failed to load dawn_db.luac: cannot open /usr/local/share/lua/5.1/dawn_db.luac",
       [.load dawn_db_path]) :=
  ⟨rfl, c2_parse_failure_no_execution envMissing [] _ rfl⟩

/-- Claim C3: when parsing succeeds but running the chunk fails with
diagnostic `m`, the entry point raises the execution-failure error
carrying `m`; the trace shows exactly one load and one call (propagated
immediately, no retry). -/
theorem c3_execution_failure_propagated (env : LuaEnv) (L : List LuaValue)
    (cid : Nat) (m : String)
    (hp : env.parseFile dawn_db_path = .ok cid)
    (hr : (env.runChunk cid []).errMsg? = some m) :
    luaopen_dawn_db env L =
      (.errorRaised ("Error running dawn_db.luac: " ++ m),
       [.load dawn_db_path, .call 0 1]) := by
  rw [luaopen_decomposition]
  cases h : env.runChunk cid [] <;>
    rw [h] at hr <;>
    simp [RunResult.errMsg?] at hr <;>
    simp [loaderPure, loaderEvents, hp, h, hr]

/-- Witness for C3 at a concrete environment whose chunk faults. -/
theorem c3_witness :
    envFault.parseFile dawn_db_path = .ok 0 ∧
    (envFault.runChunk 0 []).errMsg? =
      some "attempt to perform arithmetic on a nil value" ∧
    luaopen_dawn_db envFault [] =
      (.errorRaised
        "Error running dawn_db.luac: attempt to perform arithmetic on a nil value",
       [.load dawn_db_path, .call 0 1]) :=
  ⟨rfl, rfl, c3_execution_failure_propagated envFault [] 0 _ rfl rfl⟩

/-- Counterexample to claim C4: the entry point does not take a
caller-supplied path.  Its only caller-controlled input is the execution
context's stack (where `require` passes the module name); even when the
caller supplies a different path string there, the file-load attempt is
for the compiled-in constant path, never for the caller's string. -/
theorem c4_counterexample :
    (luaopen_dawn_db envSuccess [.str "/tmp/other_module.luac"]).2 =
      [.load dawn_db_path, .call 0 1] ∧
    Event.load "/tmp/other_module.luac" ∉
      (luaopen_dawn_db envSuccess [.str "/tmp/other_module.luac"]).2 ∧
    dawn_db_path ≠ "/tmp/other_module.luac" := by
  refine ⟨rfl, ?_, by decide⟩
  decide

/-- Claim C4 (amended): the entry point takes no path argument; the path
is the compiled-in constant `/usr/local/share/lua/5.1/dawn_db.luac`, and
every invocation performs exactly one file-load attempt, at exactly that
fixed path, regardless of the environment and of everything on the
caller's stack. -/
theorem c4_amended_fixed_path (env : LuaEnv) (L : List LuaValue) :
    loadEvents (luaopen_dawn_db env L).2 = [.load dawn_db_path] := by
  rw [luaopen_decomposition]
  cases h : env.parseFile dawn_db_path <;> simp [loaderEvents, h, loadEvents]

/-- Claim C5: the loader retains no state between invocations.  Two calls
against the same environment, whatever each call's entry stack is, perform
the identical event trace (each one re-parses the file — the load event is
in every trace — and re-executes), and yield the same observable result:
the same raised message, or the same status and same produced value. -/
theorem c5_no_retained_state (env : LuaEnv) (L1 L2 : List LuaValue) :
    (luaopen_dawn_db env L1).2 = (luaopen_dawn_db env L2).2 ∧
    Event.load dawn_db_path ∈ (luaopen_dawn_db env L1).2 ∧
    observableResult (luaopen_dawn_db env L1).1 =
      observableResult (luaopen_dawn_db env L2).1 := by
  rw [luaopen_decomposition, luaopen_decomposition]
  refine ⟨rfl, ?_, ?_⟩
  · unfold loaderEvents
    cases h : env.parseFile dawn_db_path <;> simp
  · cases h : loaderPure env <;> simp [observableResult]

/-- Claim C6: in every invocation whose parse step succeeds, the whole
event trace is one load followed by exactly one protected call, with zero
arguments and one requested result — no retry, no second execution. -/
theorem c6_single_execution (env : LuaEnv) (L : List LuaValue) (cid : Nat)
    (hp : env.parseFile dawn_db_path = .ok cid) :
    (luaopen_dawn_db env L).2 = [.load dawn_db_path, .call 0 1] := by
  rw [luaopen_decomposition]
  simp [loaderEvents, hp]

/-- Witness for C6 at a concrete environment (chunk faults, yet the call
was attempted exactly once). -/
theorem c6_witness :
    envFault.parseFile dawn_db_path = .ok 0 ∧
    (luaopen_dawn_db envFault [.nil]).2 = [.load dawn_db_path, .call 0 1] :=
  ⟨rfl, c6_single_execution envFault [.nil] 0 rfl⟩

/-- Claim C7: whenever the entry point raises an error, the step that
failed left a diagnostic string (at the top of the context's stack), and
the raised human-readable message is one of the two fixed texts of the
source with that exact diagnostic appended. -/
theorem c7_failure_message_carries_diag (env : LuaEnv) (L : List LuaValue)
    (m : String)
    (h : (luaopen_dawn_db env L).1 = .errorRaised m) :
    ∃ d, underlyingDiag env = some d ∧
      (m = "Failed to load dawn_db.luac: " ++ d ∨
       m = "Error running dawn_db.luac: " ++ d) := by
  rw [luaopen_decomposition] at h
  unfold underlyingDiag
  unfold loaderPure at h
  cases h1 : env.parseFile dawn_db_path with
  | ok cid =>
      cases h2 : env.runChunk cid [] <;> simp_all [RunResult.errMsg?]
  | errFile d => simp_all [LoadResult.errMsg?]
  | errSyntax d => simp_all [LoadResult.errMsg?]
  | errMem d => simp_all [LoadResult.errMsg?]

/-- Witness for C7 at a concrete environment with a missing file. -/
theorem c7_witness :
    (luaopen_dawn_db envMissing []).1 =
      .errorRaised
        "Failed to load dawn_db.luac: cannot open /usr/local/share/lua/5.1/dawn_db.luac" ∧
    ∃ d, underlyingDiag envMissing = some d ∧
      ("Failed to load dawn_db.luac: cannot open /usr/local/share/lua/5.1/dawn_db.luac"
          = "Failed to load dawn_db.luac: " ++ d ∨
       "Failed to load dawn_db.luac: cannot open /usr/local/share/lua/5.1/dawn_db.luac"
          = "Error running dawn_db.luac: " ++ d) :=
  ⟨rfl, c7_failure_message_carries_diag envMissing [] _ rfl⟩

/-- Claim C8: because exactly one result is requested from the protected
call, a successful invocation always delivers exactly one value above the
entry stack with status 1: the chunk's first returned value, or `nil`
when the chunk returned no values. -/
theorem c8_one_result_adjusted (env : LuaEnv) (L : List LuaValue)
    (cid : Nat) (vals : List LuaValue)
    (hp : env.parseFile dawn_db_path = .ok cid)
    (hr : env.runChunk cid [] = .ok vals) :
    (luaopen_dawn_db env L).1 = .returned 1 (vals.headD .nil :: L) := by
  rw [luaopen_decomposition]
  simp [loaderPure, hp, hr]

/-- Witness for C8: a chunk returning no values delivers `nil`; a chunk
returning three values delivers only the first; both with status 1. -/
theorem c8_witness :
    envNoValues.runChunk 0 [] = .ok [] ∧
    envManyValues.runChunk 0 [] = .ok [.num 1, .num 2, .num 3] ∧
    (luaopen_dawn_db envNoValues []).1 = .returned 1 [.nil] ∧
    (luaopen_dawn_db envManyValues []).1 = .returned 1 [.num 1] :=
  ⟨rfl, rfl,
   c8_one_result_adjusted envNoValues [] 0 [] rfl rfl,
   c8_one_result_adjusted envManyValues [] 0 [.num 1, .num 2, .num 3] rfl rfl⟩

/-- Claim C9: the entry point neither reads nor modifies anything below
the top of the entry stack: its outcome and trace are a function of the
external environment alone (`loaderPure`, `loaderEvents`), and the entry
stack `L` enters the result only on success, as the unchanged `L` with
exactly one new value pushed above it. -/
theorem c9_frame_effect (env : LuaEnv) (L : List LuaValue) :
    luaopen_dawn_db env L =
      ((match loaderPure env with
        | .error m => .errorRaised m
        | .ok v => .returned 1 (v :: L)),
       loaderEvents env) :=
  luaopen_decomposition env L

/-- Claim C10: every invocation has exactly two possible fates — an error
raised through the runtime's error mechanism, or a normal return with
status 1 and one value delivered; it never returns normally with any
other status. -/
theorem c10_two_outcomes (env : LuaEnv) (L : List LuaValue) :
    (∃ m, (luaopen_dawn_db env L).1 = .errorRaised m) ∨
    (∃ v, (luaopen_dawn_db env L).1 = .returned 1 (v :: L)) := by
  rw [luaopen_decomposition]
  cases h : loaderPure env <;> simp
